import Mathlib

/-!
Verification of the pinject dependency-injection example (`src/basic.py`).

The module defines a domain object (`Order`), an abstraction (`OrderContext`)
with two implementations (`SqlLiteOrderContext`, `MemoryOrderContext`), a
service (`OrderService`) that delegates `process_order` to the injected
context, a binding spec (`OrderContextBindingSpec`) and four demonstration
scenarios.  The pinject container itself is not part of the repository, so the
resolver (`new_object_graph` / `provide`) is modelled from the specification's
contract for the Resolver/Container component.

Objects are modelled with explicit state passing: each operation returns the
post-state of every object it could mutate, together with a trace of
observable events (persist calls and lines printed to standard output).
Object identity (Python `is`) is modelled by a numeric allocation reference
carried by every implementation instance.
-/

namespace Basic

/-- Python `None`, the value returned by a function body with no `return`. -/
inductive PyNone : Type
  | mk
deriving DecidableEq

/-- The domain object: `Order.__init__` stores the given string in
`self.order_id`. -/
structure Order : Type where
  order_id : String
deriving DecidableEq

/-- The two concrete classes implementing the `OrderContext` abstraction. -/
inductive OrderContextClass : Type
  | SqlLiteOrderContext
  | MemoryOrderContext
deriving DecidableEq

/-- `self.__class__.__name__` for an implementation class. -/
def className : OrderContextClass → String
  | OrderContextClass.SqlLiteOrderContext => "SqlLiteOrderContext"
  | OrderContextClass.MemoryOrderContext => "MemoryOrderContext"

/-- A runtime instance of an implementation class: its dynamic class plus an
allocation reference modelling Python object identity. -/
structure OrderContextInstance : Type where
  cls : OrderContextClass
  ref : Nat
deriving DecidableEq

/-- Python `is` on two implementation instances: reference identity. -/
def pyIs (a b : OrderContextInstance) : Bool :=
  a.ref == b.ref

/-- Python `print` of a boolean renders `True` or `False`. -/
def pyBoolStr (b : Bool) : String :=
  if b then "True" else "False"

/-- Observable events.  A `persistCall` records that `create_order` was
entered on a given instance with a given argument; a `print` records one line
written to standard output.  The entity argument type is a parameter because
the Python bodies never inspect the entity, so any value (an `Order`, `None`,
anything) can flow through. -/
inductive Event (α : Type) : Type
  | persistCall (ctx : OrderContextInstance) (order : α)
  | print (line : String)
deriving DecidableEq

/-- The lines an event trace writes to standard output. -/
def outputOf {α : Type} : List (Event α) → List String
  | [] => []
  | Event.persistCall _ _ :: es => outputOf es
  | Event.print l :: es => l :: outputOf es

/-- The persist calls (receiver instance and argument) in an event trace. -/
def persistCallsOf {α : Type} : List (Event α) → List (OrderContextInstance × α)
  | [] => []
  | Event.persistCall c o :: es => (c, o) :: persistCallsOf es
  | Event.print _ :: es => persistCallsOf es

/-- Result of `create_order`: the returned value, the post-state of the
entity argument, and the events produced. -/
structure PersistResult (α : Type) : Type where
  ret : PyNone
  order : α
  events : List (Event α)
deriving DecidableEq

/-- `create_order` as defined identically by `SqlLiteOrderContext` and
`MemoryOrderContext`: `print(f"Order created by {self.__class__.__name__}")`,
no `return`.  The entity argument is never inspected. -/
def OrderContextInstance.create_order {α : Type} (self : OrderContextInstance)
    (order : α) : PersistResult α :=
  { ret := PyNone.mk
    order := order
    events := [Event.persistCall self order,
               Event.print ("Order created by " ++ className self.cls)] }

/-- The service: `__init__` stores the injected context in
`self.order_context`. -/
structure OrderService : Type where
  order_context : OrderContextInstance
deriving DecidableEq

/-- Result of `process_order`: the returned value, the post-state of the
service, the post-state of the entity, and the events produced. -/
structure ProcessResult (α : Type) : Type where
  ret : PyNone
  self : OrderService
  order : α
  events : List (Event α)
deriving DecidableEq

/-- `OrderService.process_order`: the body is exactly
`self.order_context.create_order(order)`, with no `return`. -/
def OrderService.process_order {α : Type} (self : OrderService) (order : α) :
    ProcessResult α :=
  let r := self.order_context.create_order order
  { ret := PyNone.mk, self := self, order := r.order, events := r.events }

/-- A sequence of `process_order` calls on one service, threading the
service's state; returns the service's final state. -/
def processSeq {α : Type} (s : OrderService) : List α → OrderService
  | [] => s
  | o :: os => processSeq (s.process_order o).self os

/-- The lifetime scope constants of the container (`pinject.SINGLETON`,
`pinject.PROTOTYPE`). -/
inductive Scope : Type
  | SINGLETON
  | PROTOTYPE
deriving DecidableEq

/-- One `bind(name, to_class=..., in_scope=...)` declaration. -/
structure Binding : Type where
  name : String
  to_class : OrderContextClass
  in_scope : Scope
deriving DecidableEq

/-- `OrderContextBindingSpec.configure`:
`bind("order_context", to_class=MemoryOrderContext, in_scope=pinject.PROTOTYPE)`. -/
def OrderContextBindingSpec.configure : List Binding :=
  [{ name := "order_context"
     to_class := OrderContextClass.MemoryOrderContext
     in_scope := Scope.PROTOTYPE }]

/-- The configuration error a resolver raises for a dependency with no
registered binding. -/
structure BindingNotFoundError : Type where
  missing : String
deriving DecidableEq

/-- Modelled from the spec: the Resolver/Container component (`pinject`'s
object graph is not part of this repository).  It holds the collected
bindings, the cache of singleton-scoped instances, and a fresh allocation
counter for object identity. -/
structure ObjectGraph : Type where
  bindings : List Binding
  cache : List (String × OrderContextInstance)
  next : Nat
deriving DecidableEq

/-- Modelled from the spec: `pinject.new_object_graph(binding_specs=...)`
collects the bindings declared by the given binding specs into a fresh
container with an empty singleton cache. -/
def new_object_graph (binding_specs : List (List Binding)) : ObjectGraph :=
  { bindings := binding_specs.flatten, cache := [], next := 0 }

/-- Modelled from the spec: resolving one named dependency against the
bindings.  No binding raises `BindingNotFoundError`; a singleton-scoped
binding reuses the cached instance or creates and caches one; a
prototype-scoped binding creates a fresh instance on every resolution. -/
def ObjectGraph.resolveDep (g : ObjectGraph) (name : String) :
    Except BindingNotFoundError (OrderContextInstance × ObjectGraph) :=
  match g.bindings.find? (fun b => b.name == name) with
  | none => Except.error { missing := name }
  | some b =>
    match b.in_scope with
    | Scope.SINGLETON =>
      match g.cache.find? (fun p => p.1 == name) with
      | some p => Except.ok (p.2, g)
      | none =>
        let inst : OrderContextInstance := { cls := b.to_class, ref := g.next }
        Except.ok (inst,
          { g with cache := (name, inst) :: g.cache, next := g.next + 1 })
    | Scope.PROTOTYPE =>
      let inst : OrderContextInstance := { cls := b.to_class, ref := g.next }
      Except.ok (inst, { g with next := g.next + 1 })

/-- Modelled from the spec: `provide` for a requested type resolves each of
the type's declared constructor dependencies, in order, against the
bindings. -/
def ObjectGraph.provideWith (g : ObjectGraph) :
    List String → Except BindingNotFoundError (List OrderContextInstance × ObjectGraph)
  | [] => Except.ok ([], g)
  | d :: ds =>
    match g.resolveDep d with
    | Except.error e => Except.error e
    | Except.ok (inst, g2) =>
      match g2.provideWith ds with
      | Except.error e => Except.error e
      | Except.ok (insts, g3) => Except.ok (inst :: insts, g3)

/-- Modelled from the spec: `obj_graph.provide(OrderService)` resolves the
service's one declared dependency `order_context` and constructs the service
with it. -/
def ObjectGraph.provideOrderService (g : ObjectGraph) :
    Except BindingNotFoundError (OrderService × ObjectGraph) :=
  match g.resolveDep "order_context" with
  | Except.error e => Except.error e
  | Except.ok (ctx, g2) => Except.ok ({ order_context := ctx }, g2)

/-- `process_order_no_di`: manual wiring with `SqlLiteOrderContext`, then
`process_order` on `Order("order-123")`; returns the event trace. -/
def process_order_no_di : List (Event Order) :=
  let order_context : OrderContextInstance :=
    { cls := OrderContextClass.SqlLiteOrderContext, ref := 0 }
  let order_service : OrderService := { order_context := order_context }
  let order : Order := { order_id := "order-123" }
  (order_service.process_order order).events

/-- `process_order_di`: container-resolved wiring from
`OrderContextBindingSpec`, then `process_order` on `Order("order-123")`;
returns the event trace (or the resolution error). -/
def process_order_di : Except BindingNotFoundError (List (Event Order)) :=
  let obj_graph := new_object_graph [OrderContextBindingSpec.configure]
  match obj_graph.provideOrderService with
  | Except.error e => Except.error e
  | Except.ok (order_service, _) =>
    let order : Order := { order_id := "order-123" }
    Except.ok (order_service.process_order order).events

/-- `process_order_singleton`: build a container from
`OrderContextBindingSpec`, provide `OrderService` twice, print whether the two
held contexts are the identical object. -/
def process_order_singleton : Except BindingNotFoundError (List (Event Order)) :=
  let obj_graph := new_object_graph [OrderContextBindingSpec.configure]
  match obj_graph.provideOrderService with
  | Except.error e => Except.error e
  | Except.ok (order_service_1, g2) =>
    match g2.provideOrderService with
    | Except.error e => Except.error e
    | Except.ok (order_service_2, _) =>
      Except.ok [Event.print
        (pyBoolStr (pyIs order_service_1.order_context order_service_2.order_context))]

/-- `process_order_prototype`: build a container from
`OrderContextBindingSpec`, provide `OrderService` twice, print whether the two
held contexts are the identical object. -/
def process_order_prototype : Except BindingNotFoundError (List (Event Order)) :=
  let obj_graph := new_object_graph [OrderContextBindingSpec.configure]
  match obj_graph.provideOrderService with
  | Except.error e => Except.error e
  | Except.ok (order_service_1, g2) =>
    match g2.provideOrderService with
    | Except.error e => Except.error e
    | Except.ok (order_service_2, _) =>
      Except.ok [Event.print
        (pyBoolStr (pyIs order_service_1.order_context order_service_2.order_context))]

/-- The event trace of one `process_order` on `Order("order-123")` through a
context of class `c` with allocation reference `0`: the shared shape of the
manual and the container-resolved demonstration. -/
def demoTrace (c : OrderContextClass) : List (Event Order) :=
  [Event.persistCall { cls := c, ref := 0 } { order_id := "order-123" },
   Event.print ("Order created by " ++ className c)]

/-- Evaluation of `resolveDep` on a container whose bindings are exactly those
declared by `OrderContextBindingSpec`: the prototype-scoped binding always
allocates a fresh instance of `MemoryOrderContext`. -/
theorem resolveDep_binding_spec (cache : List (String × OrderContextInstance))
    (nxt : Nat) :
    ObjectGraph.resolveDep ⟨OrderContextBindingSpec.configure, cache, nxt⟩
      "order_context" =
    Except.ok ({ cls := OrderContextClass.MemoryOrderContext, ref := nxt },
      ⟨OrderContextBindingSpec.configure, cache, nxt + 1⟩) := rfl

/-- Evaluation of `provide(OrderService)` on a container whose bindings are
exactly those declared by `OrderContextBindingSpec`. -/
theorem provideOrderService_binding_spec (cache : List (String × OrderContextInstance))
    (nxt : Nat) :
    ObjectGraph.provideOrderService ⟨OrderContextBindingSpec.configure, cache, nxt⟩ =
    Except.ok
      ({ order_context := { cls := OrderContextClass.MemoryOrderContext, ref := nxt } },
       ⟨OrderContextBindingSpec.configure, cache, nxt + 1⟩) := rfl

/-- On one service the `process_order` calls never touch the service's state. -/
theorem processSeq_self {α : Type} (s : OrderService) (os : List α) :
    processSeq s os = s := by
  induction os with
  | nil => rfl
  | cons o os ih => exact ih

/-- Claim C1: the singleton-identity demonstration evaluated as the code
stands: the binding spec it builds the container from declares `PROTOTYPE`
scope (not singleton), so the two provided services hold distinct
implementation instances and the scenario prints `False`, contrary to the
claimed singleton scope and identical dependency. -/
theorem singleton_demo_uses_prototype_binding :
    OrderContextBindingSpec.configure.map Binding.in_scope = [Scope.PROTOTYPE] ∧
    process_order_singleton = Except.ok [Event.print "False"] :=
  ⟨rfl, rfl⟩

/-- Claim C2: on any container whose bindings are those declared by
`OrderContextBindingSpec` (the prototype-scoped binding configuration), two
successive `provide` calls for `OrderService` yield services holding distinct
(not reference-equal) implementation instances. -/
theorem prototype_provide_twice_distinct (g g2 g3 : ObjectGraph)
    (s1 s2 : OrderService)
    (hb : g.bindings = OrderContextBindingSpec.configure)
    (h1 : g.provideOrderService = Except.ok (s1, g2))
    (h2 : g2.provideOrderService = Except.ok (s2, g3)) :
    pyIs s1.order_context s2.order_context = false := by
  obtain ⟨bs, cache, nxt⟩ := g
  replace hb : bs = OrderContextBindingSpec.configure := hb
  subst hb
  rw [provideOrderService_binding_spec] at h1
  simp only [Except.ok.injEq, Prod.mk.injEq] at h1
  obtain ⟨hs1, hg2⟩ := h1
  subst hs1
  subst hg2
  rw [provideOrderService_binding_spec] at h2
  simp only [Except.ok.injEq, Prod.mk.injEq] at h2
  obtain ⟨hs2, hg3⟩ := h2
  subst hs2
  simp [pyIs]

/-- Witness for C2 at the concrete container of the demonstration. -/
theorem prototype_provide_twice_distinct_witness :
    pyIs
      (OrderService.mk { cls := OrderContextClass.MemoryOrderContext, ref := 0 }).order_context
      (OrderService.mk { cls := OrderContextClass.MemoryOrderContext, ref := 1 }).order_context
      = false :=
  prototype_provide_twice_distinct
    (new_object_graph [OrderContextBindingSpec.configure])
    ⟨OrderContextBindingSpec.configure, [], 1⟩
    ⟨OrderContextBindingSpec.configure, [], 2⟩
    (OrderService.mk { cls := OrderContextClass.MemoryOrderContext, ref := 0 })
    (OrderService.mk { cls := OrderContextClass.MemoryOrderContext, ref := 1 })
    rfl rfl rfl

/-- Claim C3 counterexample: the manual-wiring scenario prints
`Order created by SqlLiteOrderContext` while the container-resolved scenario
prints `Order created by MemoryOrderContext`; their observable outputs are not
the same (the boolean comparison of the two outputs is `false`). -/
theorem manual_vs_di_output_differs :
    outputOf process_order_no_di = ["Order created by SqlLiteOrderContext"] ∧
    process_order_di.map outputOf = Except.ok ["Order created by MemoryOrderContext"] ∧
    (outputOf process_order_no_di == ["Order created by MemoryOrderContext"]) = false :=
  ⟨rfl, rfl, by decide⟩

/-- Claim C3 (amended): manual wiring and container-resolved wiring are
observably equivalent up to the bound implementation class: each performs
exactly one persist call on the unchanged entity `Order("order-123")` and
prints exactly one implementation-identifying line, with the identical trace
shape `demoTrace c`; they differ only in the class `c`
(`SqlLiteOrderContext` manually, `MemoryOrderContext` via the container). -/
theorem manual_vs_di_equiv_up_to_class :
    process_order_no_di = demoTrace OrderContextClass.SqlLiteOrderContext ∧
    process_order_di = Except.ok (demoTrace OrderContextClass.MemoryOrderContext) :=
  ⟨rfl, rfl⟩

/-- Claim C4: for every service and every entity value, `process_order` calls
the held context's `create_order` exactly once, passing the entity unchanged,
returns `None`, and does nothing else: the service and the entity come back
unchanged. -/
theorem process_order_delegates {α : Type} (s : OrderService) (o : α) :
    persistCallsOf (s.process_order o).events = [(s.order_context, o)] ∧
    (s.process_order o).order = o ∧
    (s.process_order o).self = s ∧
    (s.process_order o).ret = PyNone.mk :=
  ⟨rfl, rfl, rfl, rfl⟩

/-- Claim C5: for each implementation variant and every entity value,
`create_order` returns `None` and its only output is one line that contains
the implementation's class name. -/
theorem create_order_contract {α : Type} (c : OrderContextClass) (r : Nat) (o : α) :
    (OrderContextInstance.create_order ⟨c, r⟩ o).ret = PyNone.mk ∧
    outputOf (OrderContextInstance.create_order ⟨c, r⟩ o).events =
      ["Order created by " ++ className c] ∧
    (∃ pre post : String,
      "Order created by " ++ className c = pre ++ className c ++ post) :=
  ⟨rfl, rfl, "Order created by ", "", by simp⟩

/-- Claim C6: a service holds exactly one context reference, set at
construction time; after any sequence of `process_order` calls the held
reference still equals the one passed to the constructor. -/
theorem order_context_never_reassigned {α : Type} (ctx : OrderContextInstance)
    (os : List α) :
    (processSeq (OrderService.mk ctx) os).order_context = ctx := by
  rw [processSeq_self]

/-- Claim C7: the entity is immutable: after `process_order` and after either
implementation's `create_order`, the entity's `order_id` still equals the
string given at construction. -/
theorem order_immutable (idStr : String) (s : OrderService) (c : OrderContextClass)
    (r : Nat) :
    (s.process_order (Order.mk idStr)).order.order_id = idStr ∧
    ((OrderContextInstance.mk c r).create_order (Order.mk idStr)).order.order_id
      = idStr :=
  ⟨rfl, rfl⟩

/-- Claim C8: providing a type whose declared dependency has no registered
binding produces a `BindingNotFoundError` naming the missing dependency —
an error result, never a silently defaulted success. -/
theorem provide_unbound_raises (g : ObjectGraph) (d : String) (ds : List String)
    (h : g.bindings.find? (fun b => b.name == d) = none) :
    g.provideWith (d :: ds) = Except.error { missing := d } := by
  simp [ObjectGraph.provideWith, ObjectGraph.resolveDep, h]

/-- Witness for C8: an empty container has no binding for `order_context`. -/
theorem provide_unbound_raises_witness :
    (new_object_graph []).provideWith ["order_context"] =
      Except.error { missing := "order_context" } :=
  provide_unbound_raises (new_object_graph []) "order_context" [] rfl

/-- Claim C9: the printed output of `create_order` is independent of the
entity argument: for any two argument values of any types (covering Python
`None` via `Option`) and either implementation instance, the output lines are
identical, so no information from the entity flows to the output. -/
theorem create_order_output_independent {α β : Type} (self : OrderContextInstance)
    (o1 : α) (o2 : β) :
    outputOf (self.create_order o1).events = outputOf (self.create_order o2).events :=
  rfl

/-- Claim C10: the singleton-check and prototype-check demonstrations are
extensionally equal programs: the same binding configuration, the same two
`provide` calls, and the same printed identity comparison. -/
theorem singleton_prototype_demos_equal :
    process_order_singleton = process_order_prototype :=
  rfl

end Basic
